import Mathlib

/-!
Verification of `main.py` of the dontforget repository: a personal memory
service whose core is `execute_sql` (the guarded query executor), `remember`
(classify-and-store ingestion) and `remind` (the agentic tool-calling loop).

The Python code is shallowly embedded: external collaborators (the sqlite
datastore, the reasoning engine, the JSON parser of the classifier response)
are passed in as explicit behaviours, and every stateful or fallible step
becomes explicit value passing with `Except` for raised exceptions.
-/

namespace DontForget

/-! ## Strings: Python `str.upper` and substring containment (`in`)

`asciiUpper` models Python `str.upper`, which maps the string character-wise;
the model is exact on ASCII (SQL keywords and the queries at issue).  Exotic
Unicode case mappings (dotless i, sharp s) are not modelled. -/

def asciiUpper (c : Char) : Char :=
  if 97 ≤ c.toNat && c.toNat ≤ 122 then Char.ofNat (c.toNat - 32) else c

def pyUpper (s : String) : String :=
  ⟨s.data.map asciiUpper⟩

/-- `hasSub s pat = true` iff `pat` occurs contiguously inside `s`:
Python's `pat in s` on strings, on the underlying character lists. -/
def hasSub (s pat : List Char) : Bool :=
  match s with
  | [] => pat.isEmpty
  | _ :: t => pat.isPrefixOf s || hasSub t pat

/-- The mutation keywords scanned for by `execute_sql` (main.py line 59). -/
def keywords : List String := ["DELETE", "DROP", "UPDATE", "INSERT"]

/-- The guard condition of main.py line 59:
`any(x in sql_query.upper() for x in ["DELETE", "DROP", "UPDATE", "INSERT"])`. -/
def guardHit (sql_query : String) : Bool :=
  keywords.any (fun x => hasSub (pyUpper sql_query).data x.data)

/-! ## SQLite values and JSON serialization

SQLite row values reaching `json.dumps(rows, default=str)`: NULL, INTEGER,
TEXT serialize natively; `other` covers values `json.dumps` cannot serialize
natively, carrying their Python `str()` form, which `default=str` substitutes.
(REAL columns are omitted from the model: floating point.) -/

inductive Value where
  | null
  | int (n : Int)
  | str (s : String)
  | other (rep : String)
deriving DecidableEq

/-- One fetched row as `dict(row)` produces it: column name to value,
in column order. -/
abbrev Row := List (String × Value)

inductive Json where
  | null
  | bool (b : Bool)
  | num (n : Int)
  | str (s : String)
  | arr (elems : List Json)
  | obj (fields : List (String × Json))

/-- Lowercase hex digit, as CPython's JSON encoder emits. -/
def hexDigitChar (n : Nat) : Char :=
  if n < 10 then Char.ofNat (48 + n) else Char.ofNat (87 + n)

def hex4 (n : Nat) : String :=
  ⟨[hexDigitChar (n / 4096 % 16), hexDigitChar (n / 256 % 16),
    hexDigitChar (n / 16 % 16), hexDigitChar (n % 16)]⟩

/-- One character of `json.dumps` output with the default `ensure_ascii=True`:
printable ASCII other than quote and backslash is literal, the five short
escapes are used, everything else becomes `\uXXXX` (surrogate pairs above
the BMP). -/
def escChar (c : Char) : String :=
  let n := c.toNat
  if n = 34 then "\\\""
  else if n = 92 then "\\\\"
  else if n = 10 then "\\n"
  else if n = 9 then "\\t"
  else if n = 13 then "\\r"
  else if n = 8 then "\\b"
  else if n = 12 then "\\f"
  else if 32 ≤ n && n ≤ 126 then ⟨[c]⟩
  else if n < 65536 then "\\u" ++ hex4 n
  else "\\u" ++ hex4 (55296 + (n - 65536) / 1024) ++ "\\u" ++ hex4 (56320 + (n - 65536) % 1024)

def encStr (s : String) : String :=
  "\"" ++ String.join (s.data.map escChar) ++ "\""

mutual

/-- `json.dumps` with default separators `(", ", ": ")`. -/
def Json.render : Json → String
  | .null => "null"
  | .bool b => cond b "true" "false"
  | .num n => toString n
  | .str s => encStr s
  | .arr xs => "[" ++ String.intercalate ", " (renderList xs) ++ "]"
  | .obj fs => "\x7b" ++ String.intercalate ", " (renderFields fs) ++ "\x7d"

def renderList : List Json → List String
  | [] => []
  | x :: xs => x.render :: renderList xs

def renderFields : List (String × Json) → List String
  | [] => []
  | (k, v) :: fs => (encStr k ++ ": " ++ v.render) :: renderFields fs

end

/-- How `json.dumps(_, default=str)` sees one sqlite value: `other` values are
coerced through `str()` and serialized as JSON strings. -/
def valueToJson : Value → Json
  | .null => .null
  | .int n => .num n
  | .str s => .str s
  | .other rep => .str rep

/-- `dict(row)` serialized: a JSON object keyed by the column names, in order. -/
def rowToJson (row : Row) : Json :=
  .obj (row.map (fun p => (p.1, valueToJson p.2)))

/-! ## The Guarded Query Executor (`execute_sql`, main.py lines 56-69)

The datastore is the behaviour `db : String → Except String (List Row)`:
for a query it either raises (the message the exception formats to) or
returns the fetched rows.  The Python `try` converts every raised exception
to the `"SQL Error: "` text; the keyword guard runs before any connection,
so a refused query never consults `db`. -/

def execute_sql (db : String → Except String (List Row)) (sql_query : String) : String :=
  if guardHit sql_query then
    "Error: Read-only access allowed."
  else
    match db sql_query with
    | .error e => "SQL Error: " ++ e
    | .ok rows =>
      if rows.isEmpty then "No results found."
      else Json.render (Json.arr (rows.map rowToJson))

/-! ## Ingestion (`remember`, main.py lines 77-96)

External stages are behaviours: `classify` is
`client.models.generate_content(...).text` for a prompt (it may raise, and
the returned `.text` may be `None`); `loads` is `json.loads` on a string
(it may raise `ValueError`).  The whole body sits in one `try`, and any
exception becomes `HTTPException(500, str(e))`, modelled as
`.error (500, e)`.  The insert appends to the store list. -/

structure ThoughtRequest where
  text : String
deriving DecidableEq

structure Note where
  text : String
  tags : Value
  timestamp : String
deriving DecidableEq

/-- The f-string prompt of main.py line 81. -/
def tagPrompt (t : String) : String :=
  "Analyze this thought for a database. Input: \x27" ++ t ++
    "\x27. Output JSON keys: \x27tags\x27 (csv strings)."

def lookupAssoc {α : Type} : List (String × α) → String → Option α
  | [], _ => none
  | (k, v) :: rest, key => if k = key then some v else lookupAssoc rest key

/-- `json.loads(resp.text)`: when the response carried no text, Python raises
`TypeError` before any parsing. -/
def loadStage (loads : String → Except String Json) : Option String → Except String Json
  | none => .error "the JSON object must be str, bytes or bytearray, not NoneType"
  | some s => loads s

/-- Python `.get("tags", "general")` on the parsed value: a dict looks the key
up, defaulting; anything else has no `.get` attribute and raises. -/
def dictGet (j : Json) (key : String) (dflt : Json) : Except String Json :=
  match j with
  | .obj fs =>
    match lookupAssoc fs key with
    | some v => .ok v
    | none => .ok dflt
  | _ => .error "object has no attribute get"

/-- Binding the extracted tags value as an sqlite parameter: None, int, bool
and str bind; a list or dict raises `InterfaceError`. -/
def toSqlValue : Json → Except String Value
  | .null => .ok .null
  | .bool b => .ok (.int (cond b 1 0))
  | .num n => .ok (.int n)
  | .str s => .ok (.str s)
  | .arr _ => .error "Error binding parameter: type not supported"
  | .obj _ => .error "Error binding parameter: type not supported"

/-- `remember` (main.py lines 77-96): classify, parse, extract tags with
default, insert `(text, tags, ts)`.  Returns the new store plus either the
tags echoed in the `saved` response or the HTTP 500 carrying `str(e)`. -/
def remember (classify : String → Except String (Option String))
    (loads : String → Except String Json) (ts : String)
    (store : List Note) (req : ThoughtRequest) :
    List Note × Except (Nat × String) Json :=
  match classify (tagPrompt req.text) with
  | .error e => (store, .error (500, e))
  | .ok respText =>
    match loadStage loads respText with
    | .error e => (store, .error (500, e))
    | .ok j =>
      match dictGet j "tags" (Json.str "general") with
      | .error e => (store, .error (500, e))
      | .ok tagsJ =>
        match toSqlValue tagsJ with
        | .error e => (store, .error (500, e))
        | .ok v => (store ++ [⟨req.text, v, ts⟩], .ok tagsJ)

/-! ## The Agent Loop (`remind`, main.py lines 98-133)

A reasoning-engine response is modelled structurally as the loop reads it:
`candidates[0].content.parts[0].function_call`, `args["sql_query"]`, and
`response.text` (the concatenated text parts of the first candidate, `None`
when there are none).  The engine behaviour is a function from the question
and the history of (query, tool result) pairs fed back so far to the next
response.  The unbounded `while` is embedded with fuel: `none` means the
Python loop is still running after `fuel` iterations. -/

structure FunctionCall where
  args : List (String × String)
deriving DecidableEq

structure Part where
  function_call : Option FunctionCall
  text : Option String
deriving DecidableEq

structure Content where
  parts : List Part
deriving DecidableEq

structure Candidate where
  content : Content
deriving DecidableEq

structure Response where
  candidates : List Candidate
deriving DecidableEq

/-- `response.text`: joined text parts of the first candidate, `None` if absent. -/
def Response.textOf (r : Response) : Option String :=
  match r.candidates.head? with
  | none => none
  | some c =>
    let ts := c.content.parts.filterMap Part.text
    if ts.isEmpty then none else some (String.join ts)

/-- How one loop iteration classifies the response it holds. -/
inductive TurnView where
  | malformed (e : String)
  | answer (text : Option String)
  | tool (q : String)
deriving DecidableEq

/-- Lines 117-119: `response.candidates[0].content.parts[0].function_call`,
then `part.function_call.args["sql_query"]`.  Missing lists or a missing
argument key raise (IndexError / KeyError). -/
def viewTurn (r : Response) : TurnView :=
  match r.candidates.head? with
  | none => .malformed "IndexError: list index out of range"
  | some c =>
    match c.content.parts.head? with
    | none => .malformed "IndexError: list index out of range"
    | some p =>
      match p.function_call with
      | none => .answer r.textOf
      | some fc =>
        match lookupAssoc fc.args "sql_query" with
        | none => .malformed "KeyError: sql_query"
        | some q => .tool q

/-- The ReAct `while` loop.  `hist` is the (query, tool result) pairs executed
so far; each iteration runs `execute_sql` once and feeds the result back.
Returns the answer text and the final history, an uncaught exception, or
`none` when the fuel ran out with the loop still going. -/
def runLoop (db : String → Except String (List Row))
    (engine : List (String × String) → Response) :
    Nat → List (String × String) → Response →
    Option (Except String (Option String × List (String × String)))
  | 0, _, _ => none
  | fuel + 1, hist, resp =>
    match viewTurn resp with
    | .malformed e => some (.error e)
    | .answer t => some (.ok (t, hist))
    | .tool q =>
      let result := execute_sql db q
      runLoop db engine fuel (hist ++ [(q, result)]) (engine (hist ++ [(q, result)]))

/-- `remind` (main.py lines 98-133): start the chat with the question, run the
loop, return `{answer}`; any exception becomes the generic
`HTTPException(500, "Memory retrieval failed.")` (the detail is only printed).
The `Nat` in the success value counts the `execute_sql` invocations made. -/
def remind (db : String → Except String (List Row))
    (engineFam : String → List (String × String) → Response)
    (fuel : Nat) (question : String) :
    Option (Except (Nat × String) (Option String × Nat)) :=
  match runLoop db (engineFam question) fuel [] (engineFam question []) with
  | none => none
  | some (.error _) => some (.error (500, "Memory retrieval failed."))
  | some (.ok (t, hist)) => some (.ok (t, hist.length))

/-! ## Concrete collaborator behaviours used to exercise the model -/

/-- A datastore with no notes: every query returns zero rows. -/
def dbEmpty : String → Except String (List Row) := fun _ => .ok []

/-- A datastore whose every query raises with message `near REPLACE`. -/
def dbReplaceErr : String → Except String (List Row) :=
  fun _ => .error "near \x22REPLACE\x22: syntax error"

/-- A datastore raising a different message, to separate behaviours. -/
def dbOtherErr : String → Except String (List Row) :=
  fun _ => .error "database is locked"

/-- A datastore holding one note, returned for every query. -/
def oneRow : Row :=
  [("text", Value.str "buy milk"), ("tags", Value.str "errand"),
   ("timestamp", Value.str "2026-10-12 09:00:00")]

def dbOneRow : String → Except String (List Row) := fun _ => .ok [oneRow]

/-- A response whose only part is a function call with the given arguments. -/
def mkToolResp (args : List (String × String)) : Response :=
  ⟨[⟨⟨[⟨some ⟨args⟩, none⟩]⟩⟩]⟩

/-- A response whose only part is plain text. -/
def mkTextResp (t : String) : Response :=
  ⟨[⟨⟨[⟨none, some t⟩]⟩⟩]⟩

/-- An engine that asks for one query and then answers. -/
def engineOneCall : String → List (String × String) → Response :=
  fun _ hist =>
    if hist.length = 0 then mkToolResp [("sql_query", "SELECT * FROM memory")]
    else mkTextResp "You noted nothing."

/-- An engine that emits a tool call with no `sql_query` argument. -/
def engineNoArg : String → List (String × String) → Response :=
  fun _ _ => mkToolResp [("query", "SELECT 1")]

/-- A turn whose first part is text and whose second part carries a tool
call: the loop must treat it as a final answer. -/
def mixedResp : Response :=
  ⟨[⟨⟨[⟨none, some "done"⟩, ⟨some ⟨[("sql_query", "SELECT 1")]⟩, none⟩]⟩⟩]⟩

/-- A classifier behaviour answering with a well-formed tags object. -/
def classifyTags : String → Except String (Option String) :=
  fun _ => .ok (some "\x7b\x22tags\x22: \x22note\x22\x7d")

/-- A classifier behaviour answering with an empty JSON object. -/
def classifyEmptyObj : String → Except String (Option String) :=
  fun _ => .ok (some "\x7b\x7d")

/-- A classifier behaviour that raises. -/
def classifyRaise : String → Except String (Option String) :=
  fun _ => .error "503 The model is overloaded."

/-- A `json.loads` behaviour for the two classifier stub outputs. -/
def loadsStub : String → Except String Json :=
  fun s =>
    if s = "\x7b\x22tags\x22: \x22note\x22\x7d" then .ok (.obj [("tags", .str "note")])
    else if s = "\x7b\x7d" then .ok (.obj [])
    else .error "Expecting value: line 1 column 1 (char 0)"

/-! ## Helper lemmas -/

theorem hasSub_nil_pat (s : List Char) : hasSub s [] = true := by
  cases s <;> rfl

theorem isPrefixOf_self_append (pat rest : List Char) :
    pat.isPrefixOf (pat ++ rest) = true := by
  induction pat with
  | nil => simp
  | cons c t ih => simp [List.cons_append, List.isPrefixOf_cons₂, ih]

theorem hasSub_here (pat suf : List Char) : hasSub (pat ++ suf) pat = true := by
  cases pat with
  | nil => exact hasSub_nil_pat suf
  | cons c t =>
    show (List.isPrefixOf _ _ || _) = true
    rw [isPrefixOf_self_append (c :: t) suf, Bool.true_or]

theorem hasSub_of_decomp (pre pat suf : List Char) :
    hasSub (pre ++ (pat ++ suf)) pat = true := by
  induction pre with
  | nil => exact hasSub_here pat suf
  | cons p ps ih =>
    show (List.isPrefixOf _ _ || hasSub (ps ++ (pat ++ suf)) pat) = true
    rw [ih, Bool.or_true]

/-- A case-insensitive occurrence of a keyword anywhere in the query trips
the guard of main.py line 59. -/
theorem guardHit_of_occurrence (q kw : String) (hkw : kw ∈ keywords)
    (pre w suf : List Char) (hq : q.data = pre ++ w ++ suf)
    (hw : w.map asciiUpper = kw.data) : guardHit q = true := by
  unfold guardHit
  rw [List.any_eq_true]
  refine ⟨kw, hkw, ?_⟩
  have hdata : (pyUpper q).data =
      pre.map asciiUpper ++ (kw.data ++ suf.map asciiUpper) := by
    show (q.data.map asciiUpper) = _
    rw [hq, List.map_append, List.map_append, hw, List.append_assoc]
  rw [hdata]
  exact hasSub_of_decomp _ _ _

/-- Two strings with different leading characters are different. -/
theorem ne_of_head (s t : String) (h : s.data.head? ≠ t.data.head?) : s ≠ t :=
  fun he => h (he ▸ rfl)

theorem head_append_cons (s : String) (c : Char) (rest : List Char) (t : String)
    (hs : s.data = c :: rest) : (s ++ t).data.head? = some c := by
  rw [String.data_append, hs]
  rfl

/-- The four possible `execute_sql` outputs all have distinct leading
characters; these name the three non-refusal heads. -/
theorem sqlError_head (e : String) : ("SQL Error: " ++ e).data.head? = some 'S' :=
  head_append_cons "SQL Error: " 'S' "QL Error: ".data e rfl

theorem renderArr_head (xs : List Json) :
    (Json.render (Json.arr xs)).data.head? = some '[' :=
  head_append_cons "[" '[' [] _ rfl

theorem isPrefixOf_true_iff (l₁ l₂ : List Char) :
    l₁.isPrefixOf l₂ = true ↔ ∃ t, l₁ ++ t = l₂ := by
  induction l₁ generalizing l₂ with
  | nil => simp
  | cons a as ih =>
    cases l₂ with
    | nil => simp
    | cons b bs =>
      rw [List.isPrefixOf_cons₂]
      simp [Bool.and_eq_true, beq_iff_eq, ih, List.cons_append, List.cons.injEq,
        exists_and_left]

theorem hasSub_iff (s pat : List Char) :
    hasSub s pat = true ↔ ∃ pre suf, s = pre ++ pat ++ suf := by
  induction s with
  | nil =>
    constructor
    · intro h
      have hp : pat = [] := by
        cases pat with
        | nil => rfl
        | cons c cs => simp [hasSub] at h
      subst hp
      exact ⟨[], [], rfl⟩
    · rintro ⟨pre, suf, h⟩
      have h2 := h.symm
      rw [List.append_eq_nil] at h2
      rw [List.append_eq_nil] at h2
      obtain ⟨⟨-, hp⟩, -⟩ := h2
      subst hp
      exact hasSub_nil_pat []
  | cons a t ih =>
    rw [hasSub, Bool.or_eq_true, isPrefixOf_true_iff, ih]
    constructor
    · rintro (⟨suf, hsuf⟩ | ⟨pre, suf, rfl⟩)
      · exact ⟨[], suf, by simp [hsuf]⟩
      · exact ⟨a :: pre, suf, by simp⟩
    · rintro ⟨pre, suf, h⟩
      cases pre with
      | nil =>
        left
        exact ⟨suf, by simpa using h.symm⟩
      | cons p ps =>
        right
        rw [List.cons_append, List.cons_append] at h
        injection h with h1 h2
        exact ⟨ps, suf, h2⟩

/-- The guard of main.py line 59 fires exactly when the uppercased query
contains one of the four keywords as a contiguous substring. -/
theorem guardHit_iff (q : String) :
    guardHit q = true ↔
      ∃ kw ∈ keywords, ∃ pre suf, (pyUpper q).data = pre ++ kw.data ++ suf := by
  unfold guardHit
  rw [List.any_eq_true]
  constructor
  · rintro ⟨kw, hkw, hsub⟩
    rcases (hasSub_iff _ _).mp hsub with ⟨pre, suf, h⟩
    exact ⟨kw, hkw, pre, suf, h⟩
  · rintro ⟨kw, hkw, pre, suf, h⟩
    exact ⟨kw, hkw, (hasSub_iff _ _).mpr ⟨pre, suf, h⟩⟩

theorem sentinel_ne_sqlError (e : String) :
    "No results found." ≠ "SQL Error: " ++ e :=
  ne_of_head _ _ (by rw [sqlError_head]; decide)

theorem sentinel_ne_render (xs : List Json) :
    "No results found." ≠ Json.render (Json.arr xs) :=
  ne_of_head _ _ (by rw [renderArr_head]; decide)

theorem sqlError_ne_roError (e : String) :
    "SQL Error: " ++ e ≠ "Error: Read-only access allowed." :=
  ne_of_head _ _ (by rw [sqlError_head]; decide)

theorem render_ne_roError (xs : List Json) :
    Json.render (Json.arr xs) ≠ "Error: Read-only access allowed." :=
  ne_of_head _ _ (by rw [renderArr_head]; decide)

/-- Exhaustive classification of `execute_sql`'s return value: refusal,
converted exception, empty-result sentinel, or serialized rows. -/
theorem execute_sql_outcomes (db : String → Except String (List Row)) (q : String) :
    (guardHit q = true ∧ execute_sql db q = "Error: Read-only access allowed.") ∨
    (guardHit q = false ∧ ∃ e, db q = .error e ∧
      execute_sql db q = "SQL Error: " ++ e) ∨
    (guardHit q = false ∧ db q = .ok [] ∧
      execute_sql db q = "No results found.") ∨
    (guardHit q = false ∧ ∃ rows, rows ≠ [] ∧ db q = .ok rows ∧
      execute_sql db q = Json.render (Json.arr (rows.map rowToJson))) := by
  cases hg : guardHit q
  · right
    cases hdb : db q with
    | error e =>
      left
      exact ⟨rfl, e, rfl, by simp [execute_sql, hg, hdb]⟩
    | ok rows =>
      right
      cases rows with
      | nil => exact Or.inl ⟨rfl, rfl, by simp [execute_sql, hg, hdb]⟩
      | cons r rs =>
        exact Or.inr ⟨rfl, r :: rs, List.cons_ne_nil r rs, rfl,
          by simp [execute_sql, hg, hdb]⟩
  · left
    exact ⟨rfl, by simp [execute_sql, hg]⟩

/-- An unrefused query never yields the read-only refusal text. -/
theorem execute_sql_ne_roError (db : String → Except String (List Row)) (q : String)
    (h : guardHit q = false) :
    execute_sql db q ≠ "Error: Read-only access allowed." := by
  rcases execute_sql_outcomes db q with ⟨hg, -⟩ | ⟨-, e, -, he⟩ | ⟨-, -, hs⟩ |
    ⟨-, rows, -, -, hr⟩
  · rw [h] at hg; cases hg
  · rw [he]; exact sqlError_ne_roError e
  · rw [hs]; decide
  · rw [hr]; exact render_ne_roError _

/-! ## The claims -/

/-- Claim C1: for every query containing any of the mutation keywords DELETE,
DROP, UPDATE, INSERT case-insensitively anywhere in the string, `execute_sql`
refuses execution, returns the fixed read-only error string, and never
consults the datastore: its result is identical under every datastore
behaviour. -/
theorem c1_keyword_refusal (q : String)
    (h : ∃ kw ∈ keywords, ∃ pre w suf, q.data = pre ++ w ++ suf ∧
      w.map asciiUpper = kw.data) :
    ∀ db db₂ : String → Except String (List Row),
      execute_sql db q = "Error: Read-only access allowed." ∧
      execute_sql db q = execute_sql db₂ q := by
  obtain ⟨kw, hkw, pre, w, suf, hq, hw⟩ := h
  have hg := guardHit_of_occurrence q kw hkw pre w suf hq hw
  intro db db₂
  constructor
  · unfold execute_sql
    rw [if_pos hg]
  · unfold execute_sql
    rw [if_pos hg, if_pos hg]

theorem c1_witness :
    execute_sql dbOneRow "please Delete the dentist note" =
      "Error: Read-only access allowed." ∧
    execute_sql dbOneRow "please Delete the dentist note" =
      execute_sql dbEmpty "please Delete the dentist note" :=
  c1_keyword_refusal "please Delete the dentist note"
    ⟨"DELETE", by decide, "please ".data, "Delete".data, " the dentist note".data,
      by decide, by decide⟩ dbOneRow dbEmpty

/-- Claim C3: `execute_sql` is total over all inputs and datastore behaviours:
every outcome — keyword refusal, datastore exception, empty result, row
list — is returned as a string value, never raised. -/
theorem c3_every_outcome_is_a_string (db : String → Except String (List Row))
    (q : String) :
    (guardHit q = true ∧ execute_sql db q = "Error: Read-only access allowed.") ∨
    (guardHit q = false ∧ ∃ e, db q = .error e ∧
      execute_sql db q = "SQL Error: " ++ e) ∨
    (guardHit q = false ∧ db q = .ok [] ∧
      execute_sql db q = "No results found.") ∨
    (guardHit q = false ∧ ∃ rows, rows ≠ [] ∧ db q = .ok rows ∧
      execute_sql db q = Json.render (Json.arr (rows.map rowToJson))) :=
  execute_sql_outcomes db q

/-- Claim C4: a valid read-only query yielding zero rows produces the fixed
no-results sentinel, which differs from the read-only error, from every
converted SQL error string, and from every serialized row list. -/
theorem c4_empty_sentinel (db : String → Except String (List Row)) (q : String)
    (h1 : guardHit q = false) (h2 : db q = .ok ([] : List Row)) :
    execute_sql db q = "No results found." ∧
    "No results found." ≠ "Error: Read-only access allowed." ∧
    (∀ e, "No results found." ≠ "SQL Error: " ++ e) ∧
    (∀ xs : List Json, "No results found." ≠ Json.render (Json.arr xs)) :=
  ⟨by simp [execute_sql, h1, h2], by decide, sentinel_ne_sqlError, sentinel_ne_render⟩

theorem c4_witness :
    execute_sql dbEmpty "SELECT * FROM memory WHERE memory MATCH \x27dentist\x27" =
      "No results found." ∧
    "No results found." ≠ "Error: Read-only access allowed." ∧
    (∀ e, "No results found." ≠ "SQL Error: " ++ e) ∧
    (∀ xs : List Json, "No results found." ≠ Json.render (Json.arr xs)) :=
  c4_empty_sentinel dbEmpty "SELECT * FROM memory WHERE memory MATCH \x27dentist\x27"
    (by decide) rfl

/-- Claim C9: `execute_sql` refuses a query exactly when the uppercased query
contains one of the four keywords as a substring, and an unrefused query's
result depends only on the datastore's response to that very query string
(it is forwarded). -/
theorem c9_refusal_iff_substring (q : String) (db : String → Except String (List Row)) :
    (execute_sql db q = "Error: Read-only access allowed." ↔
      ∃ kw ∈ keywords, ∃ pre suf, (pyUpper q).data = pre ++ kw.data ++ suf) ∧
    (∀ db₂ : String → Except String (List Row), db q = db₂ q →
      execute_sql db q = execute_sql db₂ q) := by
  constructor
  · constructor
    · intro h
      have hg : guardHit q = true := by
        cases hgc : guardHit q
        · exact absurd h (execute_sql_ne_roError db q hgc)
        · rfl
      exact (guardHit_iff q).mp hg
    · intro hex
      have hg := (guardHit_iff q).mpr hex
      unfold execute_sql
      rw [if_pos hg]
  · intro db₂ heq
    unfold execute_sql
    rw [heq]

theorem c9_witness :
    execute_sql dbEmpty "SELECT * FROM memory WHERE tags MATCH \x27updates\x27" =
      "Error: Read-only access allowed." ∧
    ¬ execute_sql dbReplaceErr "REPLACE INTO memory VALUES (1, 2, 3)" =
      "Error: Read-only access allowed." ∧
    execute_sql dbReplaceErr "REPLACE INTO memory VALUES (1, 2, 3)" =
      "SQL Error: near \x22REPLACE\x22: syntax error" :=
  ⟨(c9_refusal_iff_substring
      "SELECT * FROM memory WHERE tags MATCH \x27updates\x27" dbEmpty).1.mpr
    ⟨"UPDATE", by decide, "SELECT * FROM MEMORY WHERE TAGS MATCH \x27".data,
      "S\x27".data, by decide⟩,
  by decide, by decide⟩

/-- Loop invariant for the engine-stub termination property: with the answer
`k` tool turns away, the loop ends with that answer, executing one query per
tool turn. -/
theorem runLoop_stub (db : String → Except String (List Row))
    (engine : List (String × String) → Response) (N : Nat) (ans : String)
    (h1 : ∀ hist : List (String × String), hist.length + 1 < N →
      ∃ qq, viewTurn (engine hist) = .tool qq)
    (h2 : ∀ hist : List (String × String), hist.length + 1 = N →
      viewTurn (engine hist) = .answer (some ans)) :
    ∀ k hist fuel, hist.length + 1 + k = N → k < fuel →
      ∃ hist2, runLoop db engine fuel hist (engine hist) =
        some (.ok (some ans, hist2)) ∧ hist2.length = N - 1 := by
  intro k
  induction k with
  | zero =>
    intro hist fuel hlen hfuel
    cases fuel with
    | zero => exact absurd hfuel (by omega)
    | succ f =>
      simp only [runLoop, h2 hist (by omega)]
      exact ⟨hist, rfl, by omega⟩
  | succ k ih =>
    intro hist fuel hlen hfuel
    cases fuel with
    | zero => exact absurd hfuel (by omega)
    | succ f =>
      obtain ⟨qq, hq⟩ := h1 hist (by omega)
      simp only [runLoop, hq]
      exact ih (hist ++ [(qq, execute_sql db qq)]) f
        (by simp only [List.length_append, List.length_cons, List.length_nil]; omega)
        (by omega)

/-- Claim C2: under an engine stub that emits tool-invocation turns on its
first N−1 calls and a text-only turn with text `ans` on its Nth call, the
`remind` loop runs `execute_sql` exactly N−1 times and answers `ans`. -/
theorem c2_loop_call_count (db : String → Except String (List Row))
    (engineFam : String → List (String × String) → Response)
    (fuel N : Nat) (question ans : String)
    (hN : 1 ≤ N) (hfuel : N ≤ fuel)
    (h1 : ∀ hist : List (String × String), hist.length + 1 < N →
      ∃ qq, viewTurn (engineFam question hist) = .tool qq)
    (h2 : ∀ hist : List (String × String), hist.length + 1 = N →
      viewTurn (engineFam question hist) = .answer (some ans)) :
    remind db engineFam fuel question = some (.ok (some ans, N - 1)) := by
  obtain ⟨hist2, hrun, hlen⟩ :=
    runLoop_stub db (engineFam question) N ans h1 h2 (N - 1) [] fuel
      (by simp only [List.length_nil]; omega) (by omega)
  unfold remind
  rw [hrun]
  simp [hlen]

theorem c2_witness :
    remind dbEmpty engineOneCall 5 "What did I note?" =
      some (.ok (some "You noted nothing.", 1)) :=
  c2_loop_call_count dbEmpty engineOneCall 5 2 "What did I note?" "You noted nothing."
    (by omega) (by omega)
    (fun hist h => by
      have h0 : hist.length = 0 := by omega
      refine ⟨"SELECT * FROM memory", ?_⟩
      simp [engineOneCall, h0]
      decide)
    (fun hist h => by
      have hl1 : hist.length = 1 := by omega
      simp [engineOneCall, hl1]
      decide)

/-- Claim C10: the loop reads only the first part of the first candidate:
when that part has no function call the turn is the final answer even if a
tool invocation sits in a later part; when it has one, the query comes from
that part's `sql_query` argument alone, and a missing argument is a
loop-fatal KeyError. -/
theorem c10_first_part_only (db : String → Except String (List Row))
    (engine : List (String × String) → Response) (fuel : Nat)
    (hist : List (String × String)) (p0 : Part) (rest : List Part)
    (cs : List Candidate) :
    (p0.function_call = none →
      runLoop db engine (fuel + 1) hist ⟨⟨⟨p0 :: rest⟩⟩ :: cs⟩ =
        some (.ok (Response.textOf ⟨⟨⟨p0 :: rest⟩⟩ :: cs⟩, hist))) ∧
    (∀ fc, p0.function_call = some fc → lookupAssoc fc.args "sql_query" = none →
      runLoop db engine (fuel + 1) hist ⟨⟨⟨p0 :: rest⟩⟩ :: cs⟩ =
        some (.error "KeyError: sql_query")) ∧
    (∀ fc q, p0.function_call = some fc → lookupAssoc fc.args "sql_query" = some q →
      viewTurn ⟨⟨⟨p0 :: rest⟩⟩ :: cs⟩ = .tool q) := by
  refine ⟨?_, ?_, ?_⟩
  · intro h
    simp [runLoop, viewTurn, h]
  · intro fc h hargs
    simp [runLoop, viewTurn, h, hargs]
  · intro fc q h hargs
    simp [viewTurn, h, hargs]

theorem c10_witness :
    runLoop dbEmpty (engineOneCall "q") 1 [] mixedResp =
      some (.ok (Response.textOf mixedResp, [])) ∧
    Response.textOf mixedResp = some "done" ∧
    runLoop dbEmpty (engineOneCall "q") 1 [] (mkToolResp [("query", "SELECT 1")]) =
      some (.error "KeyError: sql_query") ∧
    viewTurn (mkToolResp [("sql_query", "SELECT 1")]) = .tool "SELECT 1" :=
  ⟨(c10_first_part_only dbEmpty (engineOneCall "q") 0 [] ⟨none, some "done"⟩
      [⟨some ⟨[("sql_query", "SELECT 1")]⟩, none⟩] []).1 rfl,
   by decide,
   (c10_first_part_only dbEmpty (engineOneCall "q") 0 [] ⟨some ⟨[("query", "SELECT 1")]⟩, none⟩
      [] []).2.1 ⟨[("query", "SELECT 1")]⟩ rfl (by decide),
   (c10_first_part_only dbEmpty (engineOneCall "q") 0 [] ⟨some ⟨[("sql_query", "SELECT 1")]⟩, none⟩
      [] []).2.2 ⟨[("sql_query", "SELECT 1")]⟩ "SELECT 1" rfl (by decide)⟩

/-- Claim C5: a valid read-only query yielding at least one row produces the
JSON serialization of exactly the fetched rows: a JSON array of one object
per row in fetch order, each object's keys being the store's column names in
column order, with non-natively-serializable values coerced to their string
form. -/
theorem c5_row_serialization (db : String → Except String (List Row)) (q : String)
    (cols : List String) (rows : List Row)
    (h1 : guardHit q = false) (h2 : db q = .ok rows) (h3 : rows ≠ [])
    (h4 : ∀ row ∈ rows, row.map Prod.fst = cols) :
    execute_sql db q = Json.render (Json.arr (rows.map rowToJson)) ∧
    (∀ row ∈ rows, ∃ fs, rowToJson row = .obj fs ∧ fs.map Prod.fst = cols ∧
      (∀ k rep, (k, Value.other rep) ∈ row → (k, Json.str rep) ∈ fs)) ∧
    (∀ i, ∀ hi : i < rows.length, ∀ hi2 : i < (rows.map rowToJson).length,
      (rows.map rowToJson).get ⟨i, hi2⟩ = rowToJson (rows.get ⟨i, hi⟩)) := by
  refine ⟨?_, ?_, ?_⟩
  · have hne : rows.isEmpty = false := by
      cases rows with
      | nil => exact absurd rfl h3
      | cons r rs => rfl
    simp [execute_sql, h1, h2, hne]
  · intro row hrow
    refine ⟨row.map (fun p : String × Value => (p.1, valueToJson p.2)), rfl, ?_, ?_⟩
    · rw [List.map_map]
      have : (Prod.fst ∘ fun p : String × Value => (p.1, valueToJson p.2)) =
          Prod.fst := rfl
      rw [this]
      exact h4 row hrow
    · intro k rep hk
      exact List.mem_map.mpr ⟨(k, Value.other rep), hk, rfl⟩
  · intro i hi hi2
    simp [List.get_eq_getElem, List.getElem_map]

theorem c5_witness :
    execute_sql dbOneRow "SELECT * FROM memory" =
      Json.render (Json.arr ([oneRow].map rowToJson)) ∧
    (∀ row ∈ [oneRow], ∃ fs, rowToJson row = .obj fs ∧
      fs.map Prod.fst = ["text", "tags", "timestamp"] ∧
      (∀ k rep, (k, Value.other rep) ∈ row → (k, Json.str rep) ∈ fs)) ∧
    (∀ i, ∀ hi : i < [oneRow].length, ∀ hi2 : i < ([oneRow].map rowToJson).length,
      ([oneRow].map rowToJson).get ⟨i, hi2⟩ = rowToJson ([oneRow].get ⟨i, hi⟩)) :=
  c5_row_serialization dbOneRow "SELECT * FROM memory"
    ["text", "tags", "timestamp"] [oneRow] (by decide) rfl (by decide) (by decide)

/-- Claim C6 is refuted as stated: `remember` accepts a request whose text is
the empty string and persists a Note with empty text (`ThoughtRequest`
validates only that `text` is a string). -/
theorem c6_counterexample :
    ((remember classifyTags loadsStub "2026-10-12 09:00:00" [] ⟨""⟩).1.all
      (fun n => !n.text.isEmpty)) = false := by
  decide

/-- Claim C6 (amended): every Note persisted by `remember` has text equal to
the request's text — which the code does not require to be non-empty — and
its tags value is the string "general" whenever classification yields
nothing, i.e. the classifier's parsed JSON object lacks a "tags" key. -/
theorem c6_stored_note_amended (classify : String → Except String (Option String))
    (loads : String → Except String Json) (ts : String)
    (store : List Note) (req : ThoughtRequest) :
    (∀ n ∈ (remember classify loads ts store req).1, n ∈ store ∨
      (n.text = req.text ∧ n.timestamp = ts)) ∧
    (∀ r fs, classify (tagPrompt req.text) = .ok r →
      loadStage loads r = .ok (.obj fs) → lookupAssoc fs "tags" = none →
      (remember classify loads ts store req).1 =
        store ++ [⟨req.text, Value.str "general", ts⟩]) := by
  constructor
  · intro n hn
    cases hc : classify (tagPrompt req.text) with
    | error e => simp only [remember, hc] at hn; exact Or.inl hn
    | ok r =>
      cases hl : loadStage loads r with
      | error e => simp only [remember, hc, hl] at hn; exact Or.inl hn
      | ok j =>
        cases hd : dictGet j "tags" (Json.str "general") with
        | error e => simp only [remember, hc, hl, hd] at hn; exact Or.inl hn
        | ok tagsJ =>
          cases hv : toSqlValue tagsJ with
          | error e => simp only [remember, hc, hl, hd, hv] at hn; exact Or.inl hn
          | ok v =>
            simp only [remember, hc, hl, hd, hv] at hn
            rcases List.mem_append.mp hn with h | h
            · exact Or.inl h
            · have := List.mem_singleton.mp h
              subst this
              exact Or.inr ⟨rfl, rfl⟩
  · intro r fs hc hl hd
    simp only [remember, hc, hl, dictGet, hd, toSqlValue]

theorem c6_witness :
    (remember classifyEmptyObj loadsStub "2026-10-12 09:00:00" [] ⟨"call mom"⟩).1 =
      [] ++ [⟨"call mom", Value.str "general", "2026-10-12 09:00:00"⟩] :=
  (c6_stored_note_amended classifyEmptyObj loadsStub "2026-10-12 09:00:00" []
    ⟨"call mom"⟩).2 (some "\x7b\x7d") [] rfl rfl rfl

/-- Claim C7: if the Tag Classifier call raises, or the JSON parse of its
response raises, `remember` persists nothing — the store is unchanged — and
the failure surfaces to the caller as a request-level HTTP 500 error. -/
theorem c7_ingestion_atomicity (classify : String → Except String (Option String))
    (loads : String → Except String Json) (ts : String)
    (store : List Note) (req : ThoughtRequest)
    (h : (∃ e, classify (tagPrompt req.text) = .error e) ∨
      (∃ r e, classify (tagPrompt req.text) = .ok r ∧
        loadStage loads r = .error e)) :
    (remember classify loads ts store req).1 = store ∧
    ∃ e, (remember classify loads ts store req).2 = .error (500, e) := by
  rcases h with ⟨e, hc⟩ | ⟨r, e, hc, hl⟩
  · exact ⟨by simp only [remember, hc], e, by simp only [remember, hc]⟩
  · exact ⟨by simp only [remember, hc, hl], e, by simp only [remember, hc, hl]⟩

theorem c7_witness :
    (remember classifyRaise loadsStub "2026-10-12 09:00:00" [] ⟨"buy milk"⟩).1 = [] ∧
    (remember classifyRaise loadsStub "2026-10-12 09:00:00" [] ⟨"buy milk"⟩).2 =
      .error (500, "503 The model is overloaded.") :=
  ⟨(c7_ingestion_atomicity classifyRaise loadsStub "2026-10-12 09:00:00" []
      ⟨"buy milk"⟩ (Or.inl ⟨"503 The model is overloaded.", rfl⟩)).1, rfl⟩

/-- Claim C8: whatever goes wrong inside the agent loop — a malformed tool
invocation, a missing argument, any raised exception — the caller receives
exactly the fixed generic error `(500, "Memory retrieval failed.")`, whose
text is independent of the root cause. -/
theorem c8_generic_failure (db : String → Except String (List Row))
    (engineFam : String → List (String × String) → Response)
    (fuel : Nat) (question : String) (e : Nat × String)
    (h : remind db engineFam fuel question = some (.error e)) :
    e = (500, "Memory retrieval failed.") := by
  unfold remind at h
  cases hr : runLoop db (engineFam question) fuel [] (engineFam question []) with
  | none => rw [hr] at h; simp at h
  | some x =>
    cases x with
    | error le =>
      rw [hr] at h
      simp at h
      exact h.symm
    | ok p =>
      rw [hr] at h
      cases p
      simp at h

theorem c8_witness :
    remind dbEmpty engineNoArg 3 "where are my keys" =
      some (.error (500, "Memory retrieval failed.")) ∧
    (500, "Memory retrieval failed.") = ((500 : Nat), "Memory retrieval failed.") :=
  ⟨rfl,
   c8_generic_failure dbEmpty engineNoArg 3 "where are my keys"
     (500, "Memory retrieval failed.") rfl⟩

end DontForget
